import Mathlib

/-!
Shallow embedding of the rate-resolution and switch-reconciliation core of the
`octopus_germany` Home Assistant integration (files `sensor.py` and `switch.py`).

Conventions of the embedding:
* Python dictionaries coming from the coordinator are modelled as structures of
  `Option`-typed fields (`none` = key absent).  `d.get(k, v)` becomes `(field).getD v`.
* Python string truthiness (`if not s`) is modelled by `pyTruthy`, which is false for
  an absent key and for the empty string.
* Python `float(...)` on the decimal rate strings of this data model is modelled by
  `pyFloat : String → Option ℚ` (sign, digits, optional fractional part); numeric values
  are rationals, so division by 100 is exact.
* Python `datetime.time` values are modelled by `PyTime` (hour/minute/second), compared
  lexicographically exactly as Python compares `time` objects.
* Exceptions are modelled by `Option` (caught-and-defaulted paths) or `Except`
  (where the escape of an exception itself is the property of interest).
-/

namespace OctopusGermany

/-- Python truthiness of an optional string: `not s` holds for a missing key and for `""`. -/
def pyTruthy : Option String → Bool
  | none => false
  | some s => !s.isEmpty

/-- Time-of-day value, mirroring the fields of Python `datetime.time` used by the code. -/
structure PyTime where
  hour : Nat
  minute : Nat
  second : Nat
deriving DecidableEq

/-- Python compares `time` objects lexicographically on (hour, minute, second). -/
def PyTime.ltP (a b : PyTime) : Prop :=
  a.hour < b.hour ∨ (a.hour = b.hour ∧
    (a.minute < b.minute ∨ (a.minute = b.minute ∧ a.second < b.second)))

instance (a b : PyTime) : Decidable (PyTime.ltP a b) := by
  unfold PyTime.ltP; infer_instance

/-- Python `a <= b` on `time` objects: lexicographically less, or equal. -/
def PyTime.leP (a b : PyTime) : Prop := PyTime.ltP a b ∨ a = b

instance (a b : PyTime) : Decidable (PyTime.leP a b) := by
  unfold PyTime.leP; infer_instance

/-- Seconds elapsed since midnight; the numeric semantics of a time-of-day value. -/
def PyTime.toSec (t : PyTime) : Nat := t.hour * 3600 + t.minute * 60 + t.second

/-- A well-formed time-of-day as produced by Python's `time` constructor. -/
def PyTime.valid (t : PyTime) : Prop := t.hour < 24 ∧ t.minute < 60 ∧ t.second < 60

instance (t : PyTime) : Decidable t.valid := by
  unfold PyTime.valid; infer_instance

/-- Value of a (non-empty, all-digit) decimal digit string. -/
def natOfDigits (l : List Char) : Nat :=
  l.foldl (fun n c => 10 * n + (c.toNat - '0'.toNat)) 0

/-- Parse a non-empty all-digit field to a natural number (the `int(...)` calls of
`_parse_time` on the colon-separated fields; other accepted `int` spellings such as
surrounding whitespace are outside this data model). -/
def parseNatDigits (l : List Char) : Option Nat :=
  if l.isEmpty then none
  else if l.all Char.isDigit then some (natOfDigits l) else none

/-- Python `str.split(sep)` with a one-character separator, on character lists. -/
def splitCharList (sep : Char) : List Char → List (List Char)
  | [] => [[]]
  | c :: cs =>
      let r := splitCharList sep cs
      if c = sep then [] :: r
      else
        match r with
        | [] => [[c]]
        | h :: t => (c :: h) :: t

/-- `_parse_time` of `sensor.py`: split on `:`, convert the three fields with `int`,
build a `time` object.  A wrong number of fields, a non-numeric field, or a field out of
the ranges enforced by the `time` constructor raises `ValueError`, which the method
catches and turns into `None`. -/
def parse_time (time_str : String) : Option PyTime :=
  match (splitCharList ':' time_str.data).map parseNatDigits with
  | [some h, some m, some s] =>
      if h < 24 ∧ m < 60 ∧ s < 60 then some ⟨h, m, s⟩ else none
  | _ => none

/-- `_is_time_between` of `sensor.py`, translated branch for branch. -/
def is_time_between (current_time time_from time_to : PyTime) : Bool :=
  if time_to.hour = 0 ∧ time_to.minute = 0 ∧ time_to.second = 0 then
    if time_from.hour = 0 ∧ time_from.minute = 0 ∧ time_from.second = 0 then
      true
    else
      decide (PyTime.leP time_from current_time) || decide (PyTime.ltP current_time time_to)
  else if PyTime.leP time_from time_to then
    decide (PyTime.leP time_from current_time) && decide (PyTime.ltP current_time time_to)
  else
    decide (PyTime.leP time_from current_time) || decide (PyTime.ltP current_time time_to)

/-- The midnight-aware window test as the specification words it, stated over the
numeric (seconds-since-midnight) semantics of the three time-of-day values. -/
def spec_contains (now t_from t_to : PyTime) : Prop :=
  if t_to.toSec = 0 then
    t_from.toSec = 0 ∨ (t_from.toSec ≤ now.toSec ∨ now.toSec < t_to.toSec)
  else if t_from.toSec ≤ t_to.toSec then
    t_from.toSec ≤ now.toSec ∧ now.toSec < t_to.toSec
  else
    now.toSec ≥ t_from.toSec ∨ now.toSec < t_to.toSec

/-- Python decimal parsing of an unsigned literal: digits, optionally a dot and more
digits, at least one digit in total. -/
def parseUnsignedDec (l : List Char) : Option ℚ :=
  let intPart := l.takeWhile Char.isDigit
  let rest := l.dropWhile Char.isDigit
  match rest with
  | [] => if intPart.isEmpty then none else some (natOfDigits intPart : ℚ)
  | '.' :: frac =>
      if frac.all Char.isDigit ∧ (!intPart.isEmpty || !frac.isEmpty) then
        some ((natOfDigits intPart : ℚ) + (natOfDigits frac : ℚ) / (10 ^ frac.length))
      else none
  | _ => none

/-- Python `float(...)` restricted to plain decimal literals with an optional sign —
the format of the rate strings in this data model.  A string outside this format is a
parse failure (`ValueError` in the source, modelled as `none`). -/
def pyFloat (s : String) : Option ℚ :=
  match s.data with
  | '-' :: rest => (parseUnsignedDec rest).map Neg.neg
  | '+' :: rest => parseUnsignedDec rest
  | l => parseUnsignedDec l

theorem pyTime_ltP_iff_toSec (a b : PyTime) (ha : a.valid) (hb : b.valid) :
    PyTime.ltP a b ↔ a.toSec < b.toSec := by
  obtain ⟨ah, am, as⟩ := a
  obtain ⟨bh, bm, bs⟩ := b
  obtain ⟨_, ham, has⟩ := ha
  obtain ⟨_, hbm, hbs⟩ := hb
  simp only [PyTime.ltP, PyTime.toSec] at *
  omega

theorem pyTime_leP_iff_toSec (a b : PyTime) (ha : a.valid) (hb : b.valid) :
    PyTime.leP a b ↔ a.toSec ≤ b.toSec := by
  obtain ⟨ah, am, as⟩ := a
  obtain ⟨bh, bm, bs⟩ := b
  obtain ⟨_, ham, has⟩ := ha
  obtain ⟨_, hbm, hbs⟩ := hb
  simp only [PyTime.leP, PyTime.ltP, PyTime.toSec, PyTime.mk.injEq] at *
  omega

theorem pyTime_toSec_eq_zero (t : PyTime) :
    t.toSec = 0 ↔ (t.hour = 0 ∧ t.minute = 0 ∧ t.second = 0) := by
  obtain ⟨h, m, s⟩ := t
  simp only [PyTime.toSec]
  omega

theorem is_time_between_iff_spec (now t_from t_to : PyTime)
    (hn : now.valid) (hf : t_from.valid) (ht : t_to.valid) :
    is_time_between now t_from t_to = true ↔ spec_contains now t_from t_to := by
  obtain ⟨nh, nm, ns⟩ := now
  obtain ⟨fh, fm, fs⟩ := t_from
  obtain ⟨th, tm, ts⟩ := t_to
  obtain ⟨hn1, hn2, hn3⟩ := hn
  obtain ⟨hf1, hf2, hf3⟩ := hf
  obtain ⟨ht1, ht2, ht3⟩ := ht
  simp only [is_time_between, spec_contains, PyTime.leP, PyTime.ltP, PyTime.toSec,
    PyTime.mk.injEq, PyTime.valid] at *
  split_ifs <;>
    simp only [Bool.or_eq_true, Bool.and_eq_true, decide_eq_true_eq, true_iff, iff_true,
      PyTime.mk.injEq] <;>
    omega

/-- Lexicographic comparison of character lists by code point — the semantics of
Python's `<=` on strings, which the source applies to ISO-8601 timestamp strings. -/
def charListLe : List Char → List Char → Bool
  | [], _ => true
  | _ :: _, [] => false
  | a :: as, b :: bs =>
      if a.toNat < b.toNat then true
      else if b.toNat < a.toNat then false
      else charListLe as bs

/-- Python string `<=` (code-point lexicographic order). -/
def strLe (a b : String) : Bool := charListLe a.data b.data

theorem charListLe_refl (l : List Char) : charListLe l l = true := by
  induction l with
  | nil => rfl
  | cons a as ih => simp [charListLe, ih]

theorem charListLe_total (a b : List Char) :
    charListLe a b = true ∨ charListLe b a = true := by
  induction a generalizing b with
  | nil => left; rfl
  | cons x xs ih =>
    cases b with
    | nil => right; rfl
    | cons y ys =>
      simp only [charListLe]
      rcases Nat.lt_trichotomy x.toNat y.toNat with h | h | h
      · left; simp [h]
      · have h1 : ¬ x.toNat < y.toNat := by omega
        have h2 : ¬ y.toNat < x.toNat := by omega
        simpa [h1, h2] using ih ys
      · right; simp [h, Nat.lt_asymm h]

theorem charListLe_trans (a b c : List Char)
    (hab : charListLe a b = true) (hbc : charListLe b c = true) :
    charListLe a c = true := by
  induction a generalizing b c with
  | nil => rfl
  | cons x xs ih =>
    cases b with
    | nil => simp [charListLe] at hab
    | cons y ys =>
      cases c with
      | nil => simp [charListLe] at hbc
      | cons z zs =>
        simp only [charListLe] at hab hbc ⊢
        by_cases hxy : x.toNat < y.toNat
        · by_cases hyz : y.toNat < z.toNat
          · simp [show x.toNat < z.toNat by omega]
          · by_cases hzy : z.toNat < y.toNat
            · simp [hyz, hzy] at hbc
            · simp [show x.toNat < z.toNat by omega]
        · by_cases hyx : y.toNat < x.toNat
          · simp [hxy, hyx] at hab
          · by_cases hyz : y.toNat < z.toNat
            · simp [show x.toNat < z.toNat by omega]
            · by_cases hzy : z.toNat < y.toNat
              · simp [hyz, hzy] at hbc
              · have hxz : ¬ x.toNat < z.toNat := by omega
                have hzx : ¬ z.toNat < x.toNat := by omega
                simp only [hxy, hyx, hyz, hzy, hxz, hzx, if_false, ite_false] at hab hbc ⊢
                exact ih ys zs hab hbc

theorem strLe_refl (a : String) : strLe a a = true := charListLe_refl a.data

theorem strLe_total (a b : String) : strLe a b = true ∨ strLe b a = true :=
  charListLe_total a.data b.data

theorem strLe_trans (a b c : String) (hab : strLe a b = true) (hbc : strLe b c = true) :
    strLe a c = true := charListLe_trans a.data b.data c.data hab hbc

/-- An activation rule dictionary: a daily recurring `from_time`/`to_time` window. -/
structure ActivationRule where
  from_time : Option String
  to_time : Option String
deriving DecidableEq

/-- A timeslot dictionary of a time-of-use product. -/
structure Timeslot where
  name : Option String
  rate : Option String
  activation_rules : Option (List ActivationRule)
deriving DecidableEq

/-- A product dictionary as delivered by the coordinator. -/
structure Product where
  code : Option String
  name : Option String
  description : Option String
  type : Option String
  validFrom : Option String
  validTo : Option String
  grossRate : Option String
  timeslots : Option (List Timeslot)
deriving DecidableEq

/-- The validity filter of `native_value`: skip products with a falsy `validFrom`;
keep those with `validFrom <= now and (not validTo or now <= validTo)`. -/
def productKeep (now : String) (p : Product) : Bool :=
  pyTruthy p.validFrom &&
    (strLe (p.validFrom.getD "") now &&
      (!pyTruthy p.validTo || strLe now (p.validTo.getD "")))

/-- The `valid_products` list built by the filtering loop of `native_value`. -/
def validProducts (products : List Product) (now : String) : List Product :=
  products.filter (productKeep now)

/-- The sort key `p.get("validFrom", "")` of the descending sort in `native_value`. -/
def validFromKey (p : Product) : String := p.validFrom.getD ""

/-- One insertion step of a stable descending sort on `validFromKey`. -/
def insertByValidFromDesc (p : Product) : List Product → List Product
  | [] => [p]
  | q :: qs =>
      if strLe (validFromKey q) (validFromKey p) then p :: q :: qs
      else q :: insertByValidFromDesc p qs

/-- Stable descending sort on `validFromKey` — the semantics of
`valid_products.sort(key=..., reverse=True)`. -/
def sortByValidFromDesc : List Product → List Product
  | [] => []
  | p :: ps => insertByValidFromDesc p (sortByValidFromDesc ps)

/-- The product selection of `native_value`: filter to currently valid products, sort
descending by `validFrom`, and take the first one (`None` when the filter is empty). -/
def selectActiveProduct (products : List Product) (now : String) : Option Product :=
  (sortByValidFromDesc (validProducts products now)).head?

/-- Inner loop of `_get_active_timeslot_rate` over the activation rules of one
timeslot; an unparseable rule or rate string makes the loop `continue`. -/
def scanRules (ts : Timeslot) (current_time : PyTime) : List ActivationRule → Option ℚ
  | [] => none
  | rule :: rest =>
    match parse_time (rule.from_time.getD "00:00:00"),
          parse_time (rule.to_time.getD "00:00:00") with
    | some from_t, some to_t =>
        if is_time_between current_time from_t to_t then
          match pyFloat (ts.rate.getD "0") with
          | some r => some (r / 100)
          | none => scanRules ts current_time rest
        else scanRules ts current_time rest
    | _, _ => scanRules ts current_time rest

/-- Outer loop of `_get_active_timeslot_rate` over the timeslots of a product. -/
def scanTimeslots (current_time : PyTime) : List Timeslot → Option ℚ
  | [] => none
  | ts :: rest =>
    match scanRules ts current_time (ts.activation_rules.getD []) with
    | some r => some r
    | none => scanTimeslots current_time rest

/-- `_get_active_timeslot_rate` of `sensor.py` (the gas copy is textually identical). -/
def get_active_timeslot_rate (product : Option Product) (current_time : PyTime) :
    Option ℚ :=
  match product with
  | none => none
  | some p =>
    if p.type = some "Simple" then
      (pyFloat (p.grossRate.getD "0")).map (fun r => r / 100)
    else if p.type = some "TimeOfUse" ∧ p.timeslots.isSome then
      scanTimeslots current_time (p.timeslots.getD [])
    else
      none

/-- The `grossRate` conversion block of `native_value`: parse `p.get("grossRate", "0")`
as a float and divide by 100; a `ValueError` falls through to `return None`. -/
def gross_rate_fallback (p : Product) : Option ℚ :=
  (pyFloat (p.grossRate.getD "0")).map (fun g => g / 100)

/-- The rate-resolution tail of `native_value` for a selected product: use the active
timeslot rate when the product is `TimeOfUse` and one resolves, otherwise the gross
rate conversion. -/
def touRateWithFallback (p : Product) (current_time : PyTime) : Option ℚ :=
  match (if p.type = some "TimeOfUse"
         then get_active_timeslot_rate (some p) current_time
         else none) with
  | some r => some r
  | none => gross_rate_fallback p

/-- A meter dictionary (identity fields only). -/
structure Meter where
  id : Option String
  number : Option String
  meterType : Option String
deriving DecidableEq

/-- The `status` sub-dictionary of a device. -/
structure DeviceStatus where
  isSuspended : Option Bool
  currentState : Option String
deriving DecidableEq

/-- A device dictionary; `id` is always present (devices without one are dropped at
platform setup). -/
structure Device where
  id : String
  name : Option String
  provider : Option String
  status : Option DeviceStatus
deriving DecidableEq

/-- One account's snapshot record as read by the sensors and switches. -/
structure AccountData where
  products : Option (List Product)
  gas_products : Option (List Product)
  meter : Option Meter
  gas_meter : Option Meter
  devices : Option (List Device)
  electricity_balance : Option ℚ
  malo_number : Option String
  melo_number : Option String
deriving DecidableEq

/-- The empty dictionary `{}` used as default for a missing account. -/
def emptyAccountData : AccountData :=
  ⟨none, none, none, none, none, none, none, none⟩

/-- The snapshot provider: `data` (a mapping or `None`) and `last_update_success`. -/
structure Coordinator where
  data : Option (List (String × AccountData))
  last_update_success : Bool

/-- Dictionary lookup of an account number in the coordinator mapping. -/
def lookupAccount (d : List (String × AccountData)) (acc : String) : Option AccountData :=
  (d.find? (fun kv => kv.fst == acc)).map Prod.snd

/-- `native_value` of the electricity price sensor (the gas sensor repeats the same
code over `gas_products`): guard the coordinator data, select the active product, and
resolve its rate.  `now` is `datetime.now().isoformat()` and `current_time` is
`datetime.now().time()`. -/
def native_value (coordinator : Coordinator) (account_number : String) (now : String)
    (current_time : PyTime) : Option ℚ :=
  match coordinator.data with
  | none => none
  | some d =>
    if d.isEmpty then none
    else
      match lookupAccount d account_number with
      | none => none
      | some account_data =>
        let products := account_data.products.getD []
        if products.isEmpty then none
        else
          match selectActiveProduct products now with
          | none => none
          | some current_product => touRateWithFallback current_product current_time

/-- `available` of the price sensors: coordinator present, last refresh successful,
data is a dict, and the account is a key of it. -/
def sensor_available (coordinator : Coordinator) (account_number : String) : Bool :=
  coordinator.last_update_success &&
    (match coordinator.data with
     | none => false
     | some d => (lookupAccount d account_number).isSome)

/-- One timeslot/rule pair of the specification's scan: `rate / 100` when the rule
parses, its window contains `now`, and the timeslot's rate parses; `none` (keep
scanning) otherwise. -/
def ruleHit (current_time : PyTime) (tsr : Timeslot × ActivationRule) : Option ℚ :=
  match parse_time (tsr.snd.from_time.getD "00:00:00"),
        parse_time (tsr.snd.to_time.getD "00:00:00") with
  | some f, some t =>
      if is_time_between current_time f t then
        (pyFloat (tsr.fst.rate.getD "0")).map (fun r => r / 100)
      else none
  | _, _ => none

/-- Time-of-use rate resolution written from the specification's words: flatten the
timeslot/rule pairs in order, return `rate / 100` of the first pair whose rule parses,
whose window contains `now`, and whose rate parses; otherwise fall back to the
product's own `grossRate / 100`; `none` when that fails too. -/
def resolve_timeofuse_spec (p : Product) (current_time : PyTime) : Option ℚ :=
  let pairs := (p.timeslots.getD []).flatMap
    (fun ts => (ts.activation_rules.getD []).map (fun r => (ts, r)))
  match pairs.findSome? (ruleHit current_time) with
  | some r => some r
  | none => (pyFloat (p.grossRate.getD "0")).map (fun g => g / 100)

/-- `device.get("status", {}).get("isSuspended", True)` of `switch.py`. -/
def getIsSuspended (dev : Device) : Bool :=
  match dev.status with
  | none => true
  | some st => st.isSuspended.getD true

/-- `_get_device` of `switch.py`: find the switch's device in the latest snapshot. -/
def get_device (coordinator : Coordinator) (account_number device_id : String) :
    Option Device :=
  match coordinator.data with
  | none => none
  | some d =>
    if d.isEmpty then none
    else
      let account_data := (lookupAccount d account_number).getD emptyAccountData
      let devices := account_data.devices.getD []
      if devices.isEmpty then none
      else devices.find? (fun dev => dev.id == device_id)

/-- The mutable fields of `OctopusSwitch` that make up the optimistic-toggle
reconciler: the cached state and the three pending fields. -/
structure SwitchState where
  current_state : Bool
  is_switching : Bool
  pending_state : Option Bool
  pending_until : Option Nat
deriving DecidableEq

/-- The reconciler fields as set by `OctopusSwitch.__init__`. -/
def init_switch (device : Device) : SwitchState :=
  { current_state := !getIsSuspended device
    is_switching := false
    pending_state := none
    pending_until := none }

/-- The three pending fields are reset together in every revert/confirm path of the
source; this helper names that common assignment triple. -/
def clear_pending (s : SwitchState) : SwitchState :=
  { s with is_switching := false, pending_state := none, pending_until := none }

/-- `_handle_coordinator_update` of `switch.py`: adopt an externally observed state
change only when no switching operation is pending, and leave `Pending` when the
snapshot confirms the pending target. -/
def handle_coordinator_update (s : SwitchState) (coordinator : Coordinator)
    (account_number device_id : String) : SwitchState :=
  match get_device coordinator account_number device_id with
  | none => s
  | some device =>
    let new_state := !getIsSuspended device
    let s1 := if new_state ≠ s.current_state ∧ s.is_switching = false
              then { s with current_state := new_state } else s
    if s1.is_switching then
      let actual_state := !getIsSuspended device
      if s1.pending_state = some actual_state then
        { clear_pending s1 with current_state := actual_state }
      else s1
    else s1

/-- The state a read of `is_on` reports from the latest snapshot alone: the device's
negated `isSuspended` when the device is present, `False` otherwise. -/
def snapshot_report (coordinator : Coordinator) (account_number device_id : String) :
    Bool :=
  match get_device coordinator account_number device_id with
  | some device => !getIsSuspended device
  | none => false

/-- The non-pending tail of `is_on`: read the device from the snapshot, cache and
return its state, or return `False` when the device is missing. -/
def is_on_fallthrough (s : SwitchState) (coordinator : Coordinator)
    (account_number device_id : String) : Bool × SwitchState :=
  match get_device coordinator account_number device_id with
  | some device =>
      let cs := !getIsSuspended device
      (cs, { s with current_state := cs })
  | none => (false, s)

/-- The timeout check of `is_on`: `self._pending_until and now > self._pending_until`
(a `datetime` object is always truthy, so this is presence plus strict comparison). -/
def timeout_exceeded (pending_until : Option Nat) (now : Nat) : Bool :=
  match pending_until with
  | some u => decide (now > u)
  | none => false

/-- The `is_on` property of `switch.py`.  Reading it can mutate the reconciler (the
timeout branch clears the pending fields), so it returns the reported value together
with the post-read state.  Instants are modelled as seconds on a ℕ clock. -/
def is_on (s : SwitchState) (now : Nat) (coordinator : Coordinator)
    (account_number device_id : String) : Bool × SwitchState :=
  if s.is_switching = true ∧ s.pending_state ≠ none then
    if timeout_exceeded s.pending_until now then
      is_on_fallthrough (clear_pending s) coordinator account_number device_id
    else
      (s.pending_state.getD false, s)
  else is_on_fallthrough s coordinator account_number device_id

/-- Result of one external suspension request as seen by the toggle methods. -/
inductive ApiOutcome where
  | success
  | failure
  | raised
deriving DecidableEq

/-- Observable effects of one `async_turn_on`/`async_turn_off` invocation: the final
reconciler state, the `change_device_suspension` calls issued (device id and action),
and the delays of the snapshot re-fetches scheduled. -/
structure ToggleResult where
  state : SwitchState
  calls : List (String × String)
  refresh_delays : List Nat
deriving DecidableEq

/-- The synchronous prefix of both toggle methods: set the three pending fields with a
`now + 5 min` deadline before the API request is sent (300 seconds on the ℕ clock). -/
def pending_entry (s : SwitchState) (target : Bool) (now : Nat) : SwitchState :=
  { s with is_switching := true, pending_state := some target,
           pending_until := some (now + 300) }

/-- `async_turn_on` of `switch.py`: enter `Pending(true)`, issue one `UNSUSPEND`
request; on success schedule one coordinator refresh after a 3-second sleep and keep
the pending state; on a false return or an exception reset the pending fields. -/
def async_turn_on (s : SwitchState) (now : Nat) (device_id : String)
    (outcome : ApiOutcome) : ToggleResult :=
  let s1 := pending_entry s true now
  match outcome with
  | .success => ⟨s1, [(device_id, "UNSUSPEND")], [3]⟩
  | .failure => ⟨clear_pending s1, [(device_id, "UNSUSPEND")], []⟩
  | .raised => ⟨clear_pending s1, [(device_id, "UNSUSPEND")], []⟩

/-- `async_turn_off` of `switch.py`, symmetric to `async_turn_on` with target `false`
and action `SUSPEND`. -/
def async_turn_off (s : SwitchState) (now : Nat) (device_id : String)
    (outcome : ApiOutcome) : ToggleResult :=
  let s1 := pending_entry s false now
  match outcome with
  | .success => ⟨s1, [(device_id, "SUSPEND")], [3]⟩
  | .failure => ⟨clear_pending s1, [(device_id, "SUSPEND")], []⟩
  | .raised => ⟨clear_pending s1, [(device_id, "SUSPEND")], []⟩

/-- Reconciler states reachable through construction, toggles (including the state
observable between the synchronous pending entry and the API outcome), coordinator
notifications, and `is_on` reads. -/
inductive Reachable : SwitchState → Prop where
  | init (device : Device) : Reachable (init_switch device)
  | pending_phase (s : SwitchState) (b : Bool) (now : Nat) :
      Reachable s → Reachable (pending_entry s b now)
  | turn_on (s : SwitchState) (now : Nat) (device_id : String) (o : ApiOutcome) :
      Reachable s → Reachable (async_turn_on s now device_id o).state
  | turn_off (s : SwitchState) (now : Nat) (device_id : String) (o : ApiOutcome) :
      Reachable s → Reachable (async_turn_off s now device_id o).state
  | update (s : SwitchState) (c : Coordinator) (acc devid : String) :
      Reachable s → Reachable (handle_coordinator_update s c acc devid)
  | read (s : SwitchState) (now : Nat) (c : Coordinator) (acc devid : String) :
      Reachable s → Reachable (is_on s now c acc devid).snd

/-- Consistency of the three pending fields: `_is_switching` holds exactly when
`_pending_state` is set, exactly when `_pending_until` is set. -/
def Consistent (s : SwitchState) : Prop :=
  (s.is_switching = true ↔ s.pending_state ≠ none) ∧
  (s.is_switching = true ↔ s.pending_until ≠ none)

/-- One entry of the `timeslots_data` list built by `_update_attributes`. -/
structure TimeslotAttr where
  name : String
  rate : String
  activation_rules : List (String × String)
deriving DecidableEq

/-- A value of the sensor's attribute dictionary. -/
inductive AttrVal where
  | s (v : String)
  | q (v : ℚ)
  | slots (v : List TimeslotAttr)
deriving DecidableEq

/-- The attribute dictionary, as an insertion-ordered association list. -/
abbrev Attrs := List (String × AttrVal)

/-- Python dictionary assignment `m[k] = v`: overwrite in place or append. -/
def setAttr (m : Attrs) (k : String) (v : AttrVal) : Attrs :=
  if m.any (fun kv => kv.fst == k) then
    m.map (fun kv => if kv.fst == k then (k, v) else kv)
  else m ++ [(k, v)]

/-- The `default_attributes` literal of the electricity `_update_attributes`. -/
def default_attributes (account_number : String) : Attrs :=
  [("code", .s "Unknown"), ("name", .s "Unknown"), ("description", .s "Unknown"),
   ("type", .s "Unknown"), ("valid_from", .s "Unknown"), ("valid_to", .s "Unknown"),
   ("meter_id", .s "Unknown"), ("meter_number", .s "Unknown"),
   ("meter_type", .s "Unknown"), ("account_number", .s account_number)]

/-- Rendering of Python `f-string` formatting `f"{balance:.2f} €"` for a rational
balance (two decimal places; the exact rounding mode of binary floats is not
load-bearing here and is modelled by `round`). -/
def formatEuro (q : ℚ) : String :=
  let cents : Int := round (q * 100)
  let sign := if cents < 0 then "-" else ""
  let a := cents.natAbs
  let frac := a % 100
  let fracStr := if frac < 10 then "0" ++ toString frac else toString frac
  sign ++ toString (a / 100) ++ "." ++ fracStr ++ " €"

/-- The inner rule loop of the time-of-use block of `_update_attributes`.  Unlike the
twin loop in `_get_active_timeslot_rate`, the `float(timeslot.get("rate", "0"))`
conversion on a matching rule is not wrapped in `try/except`, so a parse failure is a
`ValueError` that escapes the method (modelled by `Except.error`). -/
def process_rules (current_time : PyTime) (ts : Timeslot) :
    List ActivationRule → Attrs → TimeslotAttr → Except String (Attrs × TimeslotAttr)
  | [], attrs, tsd => .ok (attrs, tsd)
  | rule :: rest, attrs, tsd =>
    let from_time := rule.from_time.getD "00:00:00"
    let to_time := rule.to_time.getD "00:00:00"
    let tsd1 : TimeslotAttr :=
      { tsd with activation_rules := tsd.activation_rules ++ [(from_time, to_time)] }
    match parse_time from_time, parse_time to_time with
    | some f, some t =>
      if is_time_between current_time f t then
        match pyFloat (ts.rate.getD "0") with
        | none => .error (ts.rate.getD "0")
        | some r =>
          let attrs1 := setAttr (setAttr (setAttr (setAttr attrs
            "active_timeslot" (.s (ts.name.getD "Unknown")))
            "active_timeslot_rate" (.q (r / 100)))
            "active_timeslot_from" (.s from_time))
            "active_timeslot_to" (.s to_time)
          process_rules current_time ts rest attrs1 tsd1
      else process_rules current_time ts rest attrs tsd1
    | _, _ => process_rules current_time ts rest attrs tsd1

/-- The outer timeslot loop of the time-of-use block of `_update_attributes`. -/
def process_timeslots (current_time : PyTime) :
    List Timeslot → Attrs → List TimeslotAttr →
    Except String (Attrs × List TimeslotAttr)
  | [], attrs, acc => .ok (attrs, acc)
  | ts :: rest, attrs, acc =>
    let tsd0 : TimeslotAttr := ⟨ts.name.getD "Unknown", ts.rate.getD "0", []⟩
    match process_rules current_time ts (ts.activation_rules.getD []) attrs tsd0 with
    | .error e => .error e
    | .ok (attrs1, tsd1) => process_timeslots current_time rest attrs1 (acc ++ [tsd1])

/-- `_update_attributes` of the electricity price sensor, in an exception monad:
`Except.error r` is a `ValueError` for rate string `r` escaping to the caller (the
constructor or the coordinator-update callback); every caught failure follows the
source's defaulted paths. -/
def update_attributes (coordinator : Coordinator) (account_number : String)
    (now : String) (current_time : PyTime) : Except String Attrs :=
  let defaults := default_attributes account_number
  match coordinator.data with
  | none => .ok defaults
  | some d =>
    if d.isEmpty then .ok defaults
    else match lookupAccount d account_number with
    | none => .ok defaults
    | some account_data =>
      let products := account_data.products.getD []
      let meterIds : String × String × String :=
        match account_data.meter with
        | some m =>
            (m.id.getD "Unknown", m.number.getD "Unknown", m.meterType.getD "Unknown")
        | none => ("Unknown", "Unknown", "Unknown")
      let defaultsWithMeter :=
        setAttr (setAttr (setAttr defaults "meter_id" (.s meterIds.fst))
          "meter_number" (.s meterIds.snd.fst)) "meter_type" (.s meterIds.snd.snd)
      if products.isEmpty then .ok defaultsWithMeter
      else match selectActiveProduct products now with
      | none => .ok defaultsWithMeter
      | some current_product =>
        let product_attributes : Attrs :=
          [("code", .s (current_product.code.getD "Unknown")),
           ("name", .s (current_product.name.getD "Unknown")),
           ("description", .s (current_product.description.getD "Unknown")),
           ("type", .s (current_product.type.getD "Unknown")),
           ("valid_from", .s (current_product.validFrom.getD "Unknown")),
           ("valid_to", .s (current_product.validTo.getD "Unknown")),
           ("meter_id", .s meterIds.fst),
           ("meter_number", .s meterIds.snd.fst),
           ("meter_type", .s meterIds.snd.snd),
           ("account_number", .s account_number),
           ("active_tariff_type", .s (current_product.type.getD "Unknown"))]
        let touStep : Except String Attrs :=
          if current_product.type = some "TimeOfUse" ∧ current_product.timeslots.isSome
          then
            match process_timeslots current_time (current_product.timeslots.getD [])
                    product_attributes [] with
            | .error e => .error e
            | .ok (attrs1, slots) => .ok (setAttr attrs1 "timeslots" (.slots slots))
          else .ok product_attributes
        match touStep with
        | .error e => .error e
        | .ok attrs2 =>
          let attrs3 := setAttr (setAttr attrs2
            "malo_number" (.s (account_data.malo_number.getD "Unknown")))
            "melo_number" (.s (account_data.melo_number.getD "Unknown"))
          let attrs4 := match account_data.electricity_balance with
            | some b => setAttr attrs3 "electricity_balance" (.s (formatEuro b))
            | none => attrs3
          .ok attrs4

theorem mem_insertByValidFromDesc (p x : Product) (l : List Product) :
    x ∈ insertByValidFromDesc p l ↔ x = p ∨ x ∈ l := by
  induction l with
  | nil => simp [insertByValidFromDesc]
  | cons q qs ih =>
    simp only [insertByValidFromDesc]
    split
    · simp only [List.mem_cons]
      try tauto
    · simp only [List.mem_cons, ih]
      try tauto

theorem mem_sortByValidFromDesc (x : Product) (l : List Product) :
    x ∈ sortByValidFromDesc l ↔ x ∈ l := by
  induction l with
  | nil => simp [sortByValidFromDesc]
  | cons p ps ih =>
    simp [sortByValidFromDesc, mem_insertByValidFromDesc, ih, eq_comm]

theorem insertByValidFromDesc_ne_nil (p : Product) (l : List Product) :
    insertByValidFromDesc p l ≠ [] := by
  cases l with
  | nil => simp [insertByValidFromDesc]
  | cons q qs =>
    simp only [insertByValidFromDesc]
    split <;> simp

theorem sortByValidFromDesc_eq_nil (l : List Product) :
    sortByValidFromDesc l = [] ↔ l = [] := by
  cases l with
  | nil => simp [sortByValidFromDesc]
  | cons p ps =>
    simp only [sortByValidFromDesc]
    constructor
    · intro h
      exact absurd h (insertByValidFromDesc_ne_nil p _)
    · intro h
      exact absurd h (by simp)

/-- The head of the list stands (weakly) above every element, in the descending
`validFrom` key order. -/
def HeadMax (l : List Product) : Prop :=
  ∀ p, l.head? = some p → ∀ q ∈ l, strLe (validFromKey q) (validFromKey p) = true

theorem headMax_insert (p : Product) (l : List Product) (hl : HeadMax l) :
    HeadMax (insertByValidFromDesc p l) := by
  cases l with
  | nil =>
    intro h hh q hq
    simp only [insertByValidFromDesc, List.head?_cons, Option.some.injEq] at hh
    simp only [insertByValidFromDesc, List.mem_singleton] at hq
    subst hh; subst hq
    exact strLe_refl _
  | cons a as =>
    intro h hh q hq
    simp only [insertByValidFromDesc] at hh hq
    by_cases hc : strLe (validFromKey a) (validFromKey p) = true
    · simp only [if_pos hc, List.head?_cons, Option.some.injEq] at hh
      simp only [if_pos hc, List.mem_cons] at hq
      subst hh
      rcases hq with rfl | rfl | hq
      · exact strLe_refl _
      · exact hc
      · exact strLe_trans _ _ _ (hl a rfl q (List.mem_cons_of_mem a hq)) hc
    · simp only [if_neg hc, List.head?_cons, Option.some.injEq] at hh
      simp only [if_neg hc, List.mem_cons, mem_insertByValidFromDesc] at hq
      subst hh
      rcases hq with rfl | rfl | hq
      · exact strLe_refl _
      · rcases strLe_total (validFromKey q) (validFromKey a) with ht | ht
        · exact ht
        · exact absurd ht hc
      · exact hl a rfl q (List.mem_cons_of_mem a hq)

theorem headMax_sort (l : List Product) : HeadMax (sortByValidFromDesc l) := by
  induction l with
  | nil => intro p hp; simp [sortByValidFromDesc] at hp
  | cons p ps ih => exact headMax_insert p _ ih

/-- C1 — Active-product selection.  The selector returns `none` exactly when the
validity filter leaves nothing; membership in the filtered list is presence of a
(truthy) `validFrom` with `validFrom <= now` and `validTo` absent/falsy or
`now <= validTo` (Python string comparison); and a returned product is a filtered
product whose `validFrom` key is lexicographically greatest among all filtered
products.  In particular a product with a falsy `validFrom` is never selected. -/
theorem active_product_selection (products : List Product) (now : String) :
    (selectActiveProduct products now = none ↔ validProducts products now = []) ∧
    (∀ p, p ∈ validProducts products now ↔
      (p ∈ products ∧ pyTruthy p.validFrom = true ∧
       strLe (p.validFrom.getD "") now = true ∧
       (pyTruthy p.validTo = true → strLe now (p.validTo.getD "") = true))) ∧
    (∀ p, selectActiveProduct products now = some p →
      p ∈ validProducts products now ∧
      ∀ q ∈ validProducts products now,
        strLe (validFromKey q) (validFromKey p) = true) := by
  refine ⟨?_, ?_, ?_⟩
  · simp only [selectActiveProduct, List.head?_eq_none_iff, sortByValidFromDesc_eq_nil]
  · intro p
    simp only [validProducts, List.mem_filter, productKeep, Bool.and_eq_true,
      Bool.or_eq_true, Bool.not_eq_true']
    constructor
    · rintro ⟨hmem, h1, h2, h3⟩
      refine ⟨hmem, h1, h2, fun ht => ?_⟩
      rcases h3 with h3 | h3
      · rw [ht] at h3; cases h3
      · exact h3
    · rintro ⟨hmem, h1, h2, h3⟩
      refine ⟨hmem, h1, h2, ?_⟩
      by_cases ht : pyTruthy p.validTo = true
      · exact Or.inr (h3 ht)
      · exact Or.inl (by simpa using ht)
  · intro p hp
    have hmem : p ∈ sortByValidFromDesc (validProducts products now) :=
      List.mem_of_mem_head? hp
    refine ⟨(mem_sortByValidFromDesc p _).mp hmem, fun q hq => ?_⟩
    exact headMax_sort (validProducts products now) p hp q
      ((mem_sortByValidFromDesc q _).mpr hq)

/-- Concrete product used to exercise the selector theorems of C1. -/
def productC1 : Product :=
  { code := some "ELEC-A", name := none, description := none, type := some "Simple",
    validFrom := some "2025-01-01T00:00:00", validTo := none,
    grossRate := some "3000", timeslots := none }

/-- Witness for C1: the selector applied to a one-product list at a concrete instant
returns that product, which the theorem then places in the filtered list and at the
top of the `validFrom` order. -/
theorem active_product_selection_witness :
    productC1 ∈ validProducts [productC1] "2025-06-01T00:00:00" ∧
    ∀ q ∈ validProducts [productC1] "2025-06-01T00:00:00",
      strLe (validFromKey q) (validFromKey productC1) = true :=
  (active_product_selection [productC1] "2025-06-01T00:00:00").2.2 productC1 (by decide)

/-- C2 — Midnight-aware window test.  On well-formed times the translated
`_is_time_between` agrees with the three-branch case description of the claim
(stated over seconds since midnight), and the claim's concrete examples hold:
`22:00-06:00` contains `23:30` and `02:00` but not `12:00`; `00:00-00:00` contains
every time of day; `08:00-00:00` contains `08:00` and `23:59:59` but not
`07:59:59`. -/
theorem midnight_aware_window_test :
    (∀ now t_from t_to : PyTime, now.valid → t_from.valid → t_to.valid →
      (is_time_between now t_from t_to = true ↔ spec_contains now t_from t_to)) ∧
    is_time_between ⟨23, 30, 0⟩ ⟨22, 0, 0⟩ ⟨6, 0, 0⟩ = true ∧
    is_time_between ⟨2, 0, 0⟩ ⟨22, 0, 0⟩ ⟨6, 0, 0⟩ = true ∧
    is_time_between ⟨12, 0, 0⟩ ⟨22, 0, 0⟩ ⟨6, 0, 0⟩ = false ∧
    (∀ now : PyTime, is_time_between now ⟨0, 0, 0⟩ ⟨0, 0, 0⟩ = true) ∧
    is_time_between ⟨8, 0, 0⟩ ⟨8, 0, 0⟩ ⟨0, 0, 0⟩ = true ∧
    is_time_between ⟨23, 59, 59⟩ ⟨8, 0, 0⟩ ⟨0, 0, 0⟩ = true ∧
    is_time_between ⟨7, 59, 59⟩ ⟨8, 0, 0⟩ ⟨0, 0, 0⟩ = false := by
  refine ⟨is_time_between_iff_spec, by decide, by decide, by decide, ?_, by decide,
    by decide, by decide⟩
  intro now
  simp [is_time_between]

/-- Witness for C2: the universal branch equivalence applied to the concrete
night-tariff window of the claim. -/
theorem midnight_aware_window_test_witness :
    is_time_between ⟨23, 30, 0⟩ ⟨22, 0, 0⟩ ⟨6, 0, 0⟩ = true ↔
      spec_contains ⟨23, 30, 0⟩ ⟨22, 0, 0⟩ ⟨6, 0, 0⟩ :=
  midnight_aware_window_test.1 ⟨23, 30, 0⟩ ⟨22, 0, 0⟩ ⟨6, 0, 0⟩
    (by decide) (by decide) (by decide)

/-- Product whose `validTo` equals the reference instant, for the C8 counterexample. -/
def productC8 : Product :=
  { code := some "ELEC-B", name := none, description := none, type := some "Simple",
    validFrom := some "2024-01-01T00:00:00", validTo := some "2024-06-01T00:00:00",
    grossRate := some "2550", timeslots := none }

/-- Counterexample to C8 as stated: the validity test of `native_value` is
`now <= validTo` (inclusive), so a product whose `validTo` equals `now` IS selected —
the interval is not half-open on the right. -/
theorem half_open_interval_counterexample :
    productC8.validTo = some "2024-06-01T00:00:00" ∧
    selectActiveProduct [productC8] "2024-06-01T00:00:00" = some productC8 :=
  ⟨rfl, by decide⟩

/-- C8 amended — the validity interval is closed on the right: a product whose
(truthy) `validFrom` is at most `now` and whose `validTo` equals `now` survives the
validity filter and is therefore eligible for selection. -/
theorem closed_validity_interval (ps : List Product) (now : String) (p : Product)
    (hmem : p ∈ ps) (hvf : pyTruthy p.validFrom = true)
    (hle : strLe (p.validFrom.getD "") now = true)
    (hvt : p.validTo = some now) :
    p ∈ validProducts ps now := by
  simp only [validProducts, List.mem_filter, productKeep, Bool.and_eq_true,
    Bool.or_eq_true, Bool.not_eq_true']
  refine ⟨hmem, hvf, hle, ?_⟩
  right
  rw [hvt]
  exact strLe_refl now

/-- Witness for the amended C8 at the concrete counterexample input. -/
theorem closed_validity_interval_witness :
    productC8 ∈ validProducts [productC8] "2024-06-01T00:00:00" :=
  closed_validity_interval [productC8] "2024-06-01T00:00:00" productC8
    (by decide) (by decide) (by decide) rfl

/-- C9 — Exact unit conversion.  For any rate string that parses as a decimal number,
both the `Simple` branch of `_get_active_timeslot_rate` and the `grossRate` block of
`native_value` return exactly the parsed value divided by 100 — rationals, so the
division is exact and unrounded. -/
theorem exact_unit_conversion (s : String) (q : ℚ) (h : pyFloat s = some q)
    (p : Product) (hty : p.type = some "Simple") (hgr : p.grossRate = some s)
    (current_time : PyTime) :
    get_active_timeslot_rate (some p) current_time = some (q / 100) ∧
    gross_rate_fallback p = some (q / 100) := by
  constructor
  · simp [get_active_timeslot_rate, hty, hgr, h]
  · simp [gross_rate_fallback, hgr, h]

/-- Concrete simple product with the cents string `"2550"` of the claim. -/
def productC9 : Product :=
  { code := some "ELEC-C", name := none, description := none, type := some "Simple",
    validFrom := some "2025-01-01T00:00:00", validTo := none,
    grossRate := some "2550", timeslots := none }

/-- Witness for C9: the cents string `"2550"` yields exactly `25.5`. -/
theorem exact_unit_conversion_witness :
    get_active_timeslot_rate (some productC9) ⟨12, 0, 0⟩ = some (51 / 2) ∧
    gross_rate_fallback productC9 = some (51 / 2) := by
  have h2550 : pyFloat "2550" = some 2550 := by decide
  have h := exact_unit_conversion "2550" 2550 h2550 productC9 rfl rfl ⟨12, 0, 0⟩
  have harith : (2550 : ℚ) / 100 = 51 / 2 := by norm_num
  rw [harith] at h
  exact h

theorem scanRules_eq_findSome (ts : Timeslot) (current_time : PyTime)
    (rules : List ActivationRule) :
    scanRules ts current_time rules =
      (rules.map (fun r => (ts, r))).findSome? (ruleHit current_time) := by
  induction rules with
  | nil => rfl
  | cons rule rest ih =>
    simp only [List.map_cons, List.findSome?_cons, scanRules, ruleHit]
    cases hf : parse_time (rule.from_time.getD "00:00:00") with
    | none => simpa using ih
    | some f =>
      cases ht : parse_time (rule.to_time.getD "00:00:00") with
      | none => simpa using ih
      | some t =>
        by_cases hb : is_time_between current_time f t
        · simp only [if_pos hb]
          cases hr : pyFloat (ts.rate.getD "0") with
          | none => simpa using ih
          | some r => simp
        · simp only [if_neg hb]
          simpa using ih

theorem scanTimeslots_eq_findSome (current_time : PyTime) (tss : List Timeslot) :
    scanTimeslots current_time tss =
      (tss.flatMap (fun ts => (ts.activation_rules.getD []).map (fun r => (ts, r)))).findSome?
        (ruleHit current_time) := by
  induction tss with
  | nil => rfl
  | cons ts rest ih =>
    simp only [List.flatMap_cons, List.findSome?_append, scanTimeslots,
      scanRules_eq_findSome, ih]
    cases ((ts.activation_rules.getD []).map (fun r => (ts, r))).findSome?
        (ruleHit current_time) with
    | none => simp
    | some r => simp

/-- C3 — TimeOfUse rate resolution.  For every `TimeOfUse` product, the code path of
`native_value` (active-timeslot scan with `grossRate` fallback, as nested loops with
`continue`) computes exactly the specification's flattened first-match scan with
gross-rate fallback. -/
theorem timeofuse_rate_resolution (p : Product) (current_time : PyTime)
    (h : p.type = some "TimeOfUse") :
    touRateWithFallback p current_time = resolve_timeofuse_spec p current_time := by
  have hns : ¬ p.type = some "Simple" := by rw [h]; decide
  unfold touRateWithFallback
  rw [if_pos h]
  cases hts : p.timeslots with
  | none =>
    have hget : get_active_timeslot_rate (some p) current_time = none := by
      simp only [get_active_timeslot_rate]
      rw [if_neg hns, if_neg (by simp [hts])]
    rw [hget]
    unfold resolve_timeofuse_spec
    simp [hts, gross_rate_fallback]
  | some tss =>
    have hget : get_active_timeslot_rate (some p) current_time
        = scanTimeslots current_time tss := by
      simp only [get_active_timeslot_rate]
      rw [if_neg hns, if_pos ⟨h, by simp [hts]⟩]
      simp [hts]
    rw [hget, scanTimeslots_eq_findSome]
    unfold resolve_timeofuse_spec
    simp only [hts, Option.getD_some]
    cases (tss.flatMap
        (fun ts => (ts.activation_rules.getD []).map (fun r => (ts, r)))).findSome?
        (ruleHit current_time) with
    | none => simp [gross_rate_fallback]
    | some r => simp

/-- Night timeslot used in the C3 witness product. -/
def timeslotC3 : Timeslot :=
  { name := some "NIGHT", rate := some "1800",
    activation_rules := some [{ from_time := some "22:00:00",
                                to_time := some "06:00:00" }] }

/-- Concrete `TimeOfUse` product for the C3 witness. -/
def productC3 : Product :=
  { code := some "ELEC-D", name := none, description := none,
    type := some "TimeOfUse",
    validFrom := some "2025-01-01T00:00:00", validTo := none,
    grossRate := some "4000", timeslots := some [timeslotC3] }

/-- Witness for C3: the code path and the specification scan agree on a concrete
time-of-use product at 23:00. -/
theorem timeofuse_rate_resolution_witness :
    touRateWithFallback productC3 ⟨23, 0, 0⟩ =
      resolve_timeofuse_spec productC3 ⟨23, 0, 0⟩ :=
  timeofuse_rate_resolution productC3 ⟨23, 0, 0⟩ rfl

theorem is_on_fallthrough_fst (s : SwitchState) (c : Coordinator) (acc devid : String) :
    (is_on_fallthrough s c acc devid).fst = snapshot_report c acc devid := by
  unfold is_on_fallthrough snapshot_report
  cases get_device c acc devid <;> rfl

/-- C4 — Optimistic-toggle lifecycle.  After `turn_on` sets the pending fields (the
state the success path keeps), `is_on` reports `true` at any read up to the deadline
regardless of the snapshot; a refresh whose device state does not match the target
leaves the reconciler state untouched; a refresh whose device state equals the target
moves it to Idle with `is_on` still reporting the target; and a read strictly after
the deadline reports whatever the latest snapshot reports. -/
theorem optimistic_toggle_lifecycle :
    (∀ (s : SwitchState) (t : Nat) (devid : String),
      (async_turn_on s t devid ApiOutcome.success).state = pending_entry s true t) ∧
    (∀ (s : SwitchState) (t now' : Nat) (c : Coordinator) (acc devid : String),
      now' ≤ t + 300 →
      (is_on (pending_entry s true t) now' c acc devid).fst = true) ∧
    (∀ (s : SwitchState) (t : Nat) (c : Coordinator) (acc devid : String) (dev : Device),
      get_device c acc devid = some dev → getIsSuspended dev = true →
      handle_coordinator_update (pending_entry s true t) c acc devid =
        pending_entry s true t) ∧
    (∀ (s : SwitchState) (t : Nat) (c : Coordinator) (acc devid : String) (dev : Device),
      get_device c acc devid = some dev → getIsSuspended dev = false →
      (handle_coordinator_update (pending_entry s true t) c acc devid).is_switching
          = false ∧
      (handle_coordinator_update (pending_entry s true t) c acc devid).pending_state
          = none ∧
      (handle_coordinator_update (pending_entry s true t) c acc devid).pending_until
          = none ∧
      (is_on (handle_coordinator_update (pending_entry s true t) c acc devid)
          t c acc devid).fst = true) ∧
    (∀ (s : SwitchState) (t now' : Nat) (c : Coordinator) (acc devid : String),
      now' > t + 300 →
      (is_on (pending_entry s true t) now' c acc devid).fst
        = snapshot_report c acc devid) := by
  refine ⟨fun s t devid => rfl, ?_, ?_, ?_, ?_⟩
  · intro s t now' c acc devid h
    have hngt : ¬ now' > t + 300 := by omega
    simp [is_on, pending_entry, timeout_exceeded, hngt]
  · intro s t c acc devid dev hdev hsus
    simp [handle_coordinator_update, hdev, hsus, pending_entry]
  · intro s t c acc devid dev hdev hsus
    refine ⟨?_, ?_, ?_, ?_⟩ <;>
      simp [handle_coordinator_update, hdev, hsus, pending_entry, clear_pending,
        is_on, is_on_fallthrough]
  · intro s t now' c acc devid h
    simp [is_on, pending_entry, timeout_exceeded, h, is_on_fallthrough_fst]

/-- Unsuspended device used in the C4 witness snapshot. -/
def deviceC4 : Device :=
  { id := "DEV-1", name := some "Car", provider := some "ENODE",
    status := some { isSuspended := some false, currentState := some "SMART" } }

/-- Coordinator snapshot for the C4 witness. -/
def coordC4 : Coordinator :=
  { data := some [("A-1", { emptyAccountData with devices := some [deviceC4] })],
    last_update_success := true }

/-- Witness for C4 on a concrete snapshot: immediate `true` before the deadline, Idle
after a confirming refresh, and snapshot truth after the deadline. -/
theorem optimistic_toggle_lifecycle_witness :
    (is_on (pending_entry (init_switch deviceC4) true 0) 100 coordC4 "A-1" "DEV-1").fst
        = true ∧
    (handle_coordinator_update (pending_entry (init_switch deviceC4) true 0)
        coordC4 "A-1" "DEV-1").is_switching = false ∧
    (is_on (pending_entry (init_switch deviceC4) true 0) 301 coordC4 "A-1" "DEV-1").fst
        = snapshot_report coordC4 "A-1" "DEV-1" :=
  ⟨optimistic_toggle_lifecycle.2.1 (init_switch deviceC4) 0 100 coordC4 "A-1" "DEV-1"
      (by omega),
   (optimistic_toggle_lifecycle.2.2.2.1 (init_switch deviceC4) 0 coordC4 "A-1" "DEV-1"
      deviceC4 (by decide) rfl).1,
   optimistic_toggle_lifecycle.2.2.2.2 (init_switch deviceC4) 0 301 coordC4 "A-1"
      "DEV-1" (by omega)⟩

/-- C5 — Toggle operation contract.  The synchronous prefix of either toggle sets the
pending fields with deadline `now + 5 min`; each invocation issues exactly one
`change_device_suspension` call with the matching action whatever the outcome (no
retry); and exactly one 3-second-delayed snapshot re-fetch is scheduled, on success
only. -/
theorem toggle_operation_contract (s : SwitchState) (t : Nat) (devid : String)
    (o : ApiOutcome) :
    ((pending_entry s true t).is_switching = true ∧
     (pending_entry s true t).pending_state = some true ∧
     (pending_entry s true t).pending_until = some (t + 300)) ∧
    ((pending_entry s false t).is_switching = true ∧
     (pending_entry s false t).pending_state = some false ∧
     (pending_entry s false t).pending_until = some (t + 300)) ∧
    (async_turn_on s t devid o).calls = [(devid, "UNSUSPEND")] ∧
    (async_turn_off s t devid o).calls = [(devid, "SUSPEND")] ∧
    (async_turn_on s t devid o).refresh_delays
      = (if o = ApiOutcome.success then [3] else []) ∧
    (async_turn_off s t devid o).refresh_delays
      = (if o = ApiOutcome.success then [3] else []) := by
  cases o <;> exact ⟨⟨rfl, rfl, rfl⟩, ⟨rfl, rfl, rfl⟩, rfl, rfl, rfl, rfl⟩

/-- C7 — Error atomicity of the toggle.  On a false return or an exception from
`change_device_suspension`, both toggles end in the cleared state: the three pending
fields are reset in the same step, the cached state is untouched, and any later
`is_on` read reports exactly what the latest snapshot reports. -/
theorem toggle_error_atomicity (s : SwitchState) (t : Nat) (devid : String)
    (o : ApiOutcome) (h : o = ApiOutcome.failure ∨ o = ApiOutcome.raised) :
    (async_turn_on s t devid o).state = clear_pending s ∧
    (async_turn_off s t devid o).state = clear_pending s ∧
    (clear_pending s).is_switching = false ∧
    (clear_pending s).pending_state = none ∧
    (clear_pending s).pending_until = none ∧
    (clear_pending s).current_state = s.current_state ∧
    (∀ (now' : Nat) (c : Coordinator) (acc did : String),
      (is_on (clear_pending s) now' c acc did).fst = snapshot_report c acc did) := by
  have htail : ∀ (now' : Nat) (c : Coordinator) (acc did : String),
      (is_on (clear_pending s) now' c acc did).fst = snapshot_report c acc did := by
    intro now' c acc did
    simp [is_on, clear_pending, is_on_fallthrough_fst]
  rcases h with rfl | rfl <;> exact ⟨rfl, rfl, rfl, rfl, rfl, rfl, htail⟩

/-- Suspended device used in the C7 witness snapshot. -/
def deviceC7 : Device :=
  { id := "DEV-2", name := some "Car2", provider := some "ENODE",
    status := some { isSuspended := some true, currentState := some "STOPPED" } }

/-- Coordinator snapshot for the C7 witness. -/
def coordC7 : Coordinator :=
  { data := some [("A-2", { emptyAccountData with devices := some [deviceC7] })],
    last_update_success := true }

/-- Witness for C7: a failed `turn_on` at a concrete state leaves the cleared state
and reading `is_on` afterwards yields the snapshot's device state. -/
theorem toggle_error_atomicity_witness :
    (async_turn_on (init_switch deviceC7) 5 "DEV-2" ApiOutcome.failure).state
        = clear_pending (init_switch deviceC7) ∧
    (is_on (clear_pending (init_switch deviceC7)) 10 coordC7 "A-2" "DEV-2").fst
        = snapshot_report coordC7 "A-2" "DEV-2" := by
  have h := toggle_error_atomicity (init_switch deviceC7) 5 "DEV-2"
    ApiOutcome.failure (Or.inl rfl)
  exact ⟨h.1, h.2.2.2.2.2.2 10 coordC7 "A-2" "DEV-2"⟩

theorem consistent_clear (s : SwitchState) : Consistent (clear_pending s) := by
  simp [Consistent, clear_pending]

theorem consistent_fallthrough (s : SwitchState) (c : Coordinator) (acc devid : String)
    (h : Consistent s) : Consistent (is_on_fallthrough s c acc devid).snd := by
  unfold is_on_fallthrough
  cases get_device c acc devid with
  | none => exact h
  | some device => exact h

/-- C10 — Implicit pending-state invariant.  In every reconciler state reachable
through construction, the toggles (including the mid-toggle pending phase),
coordinator notifications, and `is_on` reads, the flag `_is_switching` is set exactly
when `_pending_state` is, exactly when `_pending_until` is: the three fields are set
and cleared together. -/
theorem pending_fields_invariant (s : SwitchState) (h : Reachable s) : Consistent s := by
  induction h with
  | init device => simp [Consistent, init_switch]
  | pending_phase s' b now _ _ => simp [Consistent, pending_entry]
  | turn_on s' now devid o _ _ =>
    cases o <;> simp [Consistent, async_turn_on, pending_entry, clear_pending]
  | turn_off s' now devid o _ _ =>
    cases o <;> simp [Consistent, async_turn_off, pending_entry, clear_pending]
  | update s' c acc devid _ ih =>
    unfold handle_coordinator_update
    cases hd : get_device c acc devid with
    | none => exact ih
    | some device =>
      dsimp only
      by_cases hc1 : (!getIsSuspended device) ≠ s'.current_state ∧
          s'.is_switching = false
      · rw [if_pos hc1]
        rw [if_neg (by simp [hc1.2])]
        exact ih
      · rw [if_neg hc1]
        by_cases hsw : s'.is_switching = true
        · rw [if_pos hsw]
          by_cases hp : s'.pending_state = some (!getIsSuspended device)
          · rw [if_pos hp]
            simp [Consistent, clear_pending]
          · rw [if_neg hp]
            exact ih
        · rw [if_neg hsw]
          exact ih
  | read s' now c acc devid _ ih =>
    unfold is_on
    by_cases h1 : s'.is_switching = true ∧ s'.pending_state ≠ none
    · rw [if_pos h1]
      by_cases h2 : timeout_exceeded s'.pending_until now = true
      · rw [if_pos h2]
        exact consistent_fallthrough _ _ _ _ (consistent_clear s')
      · rw [if_neg h2]
        exact ih
    · rw [if_neg h1]
      exact consistent_fallthrough _ _ _ _ ih

/-- Witness for C10: the invariant holds at the freshly constructed switch. -/
theorem pending_fields_invariant_witness : Consistent (init_switch deviceC4) :=
  pending_fields_invariant (init_switch deviceC4) (Reachable.init deviceC4)

/-- Timeslot with a malformed rate string and an all-day activation rule, the C6
failing input. -/
def timeslotC6 : Timeslot :=
  { name := some "GO", rate := some "abc",
    activation_rules := some [{ from_time := some "00:00:00",
                                to_time := some "00:00:00" }] }

/-- Currently valid `TimeOfUse` product carrying the malformed timeslot rate. -/
def productC6 : Product :=
  { code := some "TOU-1", name := none, description := none, type := some "TimeOfUse",
    validFrom := some "2020-01-01T00:00:00", validTo := none,
    grossRate := some "3000", timeslots := some [timeslotC6] }

/-- Coordinator snapshot delivering the C6 failing input. -/
def coordC6 : Coordinator :=
  { data := some [("A-1", { emptyAccountData with products := some [productC6] })],
    last_update_success := true }

/-- C6 — the no-exception guarantee fails in the code: `_update_attributes` converts
`float(timeslot.get("rate", "0"))` on a matching activation rule outside any
`try/except`, so a malformed rate string (`"abc"`) raises `ValueError` through the
constructor and the coordinator-update callback instead of degrading to a sentinel.
The twin conversions in `_get_active_timeslot_rate` and `native_value` are guarded,
confirming the unguarded site is a slip. -/
theorem attributes_update_raises_on_malformed_rate :
    update_attributes coordC6 "A-1" "2026-10-12T12:00:00" ⟨12, 0, 0⟩
      = Except.error "abc" := rfl

end OctopusGermany
